import Mathlib

/-!
Verification development for the `bambu-cuts` toolpath compiler.

The definitions below are shallow embeddings of the Python source:

* `src/bambucuts/svg_path_joiner.py` — class `SVGPathJoinerRemoveMRegex`
  (path connectivity joiner);
* `src/bambucuts/gcodetools.py` — class `KnifeOffsetCompensator`
  (geometric knife-offset compensation and corner loops), class
  `KnifeInterface` (coordinate transform), class `GCodeTools`
  (pass scheduling, swivel-aware offset, G-code post-processing).

Conventions of the embedding:

* Python floats are modelled as `ℚ` where every operation of the modelled
  code is field arithmetic and comparisons (the joiner, the pass scheduler,
  the coordinate transform, the post-processor), and as `ℝ` where the code
  takes square roots or inverse cosines (the offset compensator).
* Euclidean distances (`shapely` `Point.distance`, `math.sqrt`) are real
  numbers `Real.sqrt d2` over a rational squared distance `d2`.  Distance
  comparisons such as `distance <= tolerance` are kept in this exact form
  as propositions, with `Decidable` instances obtained from the equivalent
  rational comparisons (`Real.sqrt d2 ≤ t ↔ 0 ≤ t ∧ d2 ≤ t ^ 2`,
  `Real.sqrt a < Real.sqrt b ↔ max a 0 < b`), so that the joiner remains
  an executable function.
* Real-number division by zero is Lean's junk value `0` where NumPy would
  produce NaN; no claim below exercises such a branch, except where the
  code itself guards the division (those guards are modelled verbatim).
-/

/-! ## Rational points and Euclidean distance tests -/

/-- Squared Euclidean distance between two rational points. -/
def dist2 (p q : ℚ × ℚ) : ℚ :=
  (p.1 - q.1) ^ 2 + (p.2 - q.2) ^ 2

/-- The comparison `sqrt a <= t` on real square roots of rational numbers;
`shapely`'s `Point.distance(other) <= tolerance` is `sqrtLE (dist2 p q) t`. -/
def sqrtLE (a t : ℚ) : Prop :=
  Real.sqrt (a : ℝ) ≤ (t : ℝ)

/-- The comparison `sqrt a < sqrt b`: the order of two Euclidean distances
given by their rational squares. -/
def sqrtLT (a b : ℚ) : Prop :=
  Real.sqrt (a : ℝ) < Real.sqrt (b : ℝ)

/-- The real comparison `sqrt a <= t` is the rational comparison
`0 ≤ t ∧ a ≤ t ^ 2`; this is how the model decides distance tests. -/
theorem sqrtLE_iff (a t : ℚ) : sqrtLE a t ↔ 0 ≤ t ∧ a ≤ t ^ 2 := by
  rw [sqrtLE, Real.sqrt_le_iff]
  constructor <;> rintro ⟨h1, h2⟩ <;> exact ⟨by exact_mod_cast h1, by exact_mod_cast h2⟩

/-- The real comparison `sqrt a < sqrt b` is the rational comparison
`max a 0 < b`; this is how the model decides distance orderings. -/
theorem sqrtLT_iff (a b : ℚ) : sqrtLT a b ↔ max a 0 < b := by
  rw [sqrtLT]
  rcases le_or_lt a 0 with ha | ha
  · rw [max_eq_right ha, Real.sqrt_eq_zero_of_nonpos (by exact_mod_cast ha),
      Real.sqrt_pos]
    exact ⟨fun h => by exact_mod_cast h, fun h => by exact_mod_cast h⟩
  · rw [max_eq_left ha.le, Real.sqrt_lt_sqrt_iff (by exact_mod_cast ha.le)]
    exact ⟨fun h => by exact_mod_cast h, fun h => by exact_mod_cast h⟩

instance (a t : ℚ) : Decidable (sqrtLE a t) :=
  decidable_of_iff (0 ≤ t ∧ a ≤ t ^ 2) (sqrtLE_iff a t).symm

instance (a b : ℚ) : Decidable (sqrtLT a b) :=
  decidable_of_iff (max a 0 < b) (sqrtLT_iff a b).symm

/-- Distance-within-tolerance test between two points
(`_points_close` / the `<= self.tolerance` tests of the joiner). -/
def distLE (tol : ℚ) (p q : ℚ × ℚ) : Prop :=
  sqrtLE (dist2 p q) tol

instance (tol : ℚ) (p q : ℚ × ℚ) : Decidable (distLE tol p q) :=
  inferInstanceAs (Decidable (sqrtLE (dist2 p q) tol))

/-! ## Segments and paths (`svgpathtools` data reaching the joiner) -/

/-- An `svgpathtools` path segment: `Line`, `QuadraticBezier`, `CubicBezier`
or `Arc`, with rational coordinates.  Complex endpoints are pairs. -/
inductive Segment
  | line (s e : ℚ × ℚ)
  | quadratic (s c e : ℚ × ℚ)
  | cubic (s c1 c2 e : ℚ × ℚ)
  | arc (s : ℚ × ℚ) (radius : ℚ × ℚ) (rotation : ℚ) (largeArc sweep : Bool) (e : ℚ × ℚ)
  deriving DecidableEq

/-- `segment.start` of `svgpathtools`. -/
def Segment.startPoint : Segment → ℚ × ℚ
  | .line s _ => s
  | .quadratic s _ _ => s
  | .cubic s _ _ _ => s
  | .arc s _ _ _ _ _ => s

/-- `segment.end` of `svgpathtools`. -/
def Segment.endPoint : Segment → ℚ × ℚ
  | .line _ e => e
  | .quadratic _ _ e => e
  | .cubic _ _ _ e => e
  | .arc _ _ _ _ _ e => e

/-- `segment.reversed()` of `svgpathtools`: endpoints swapped, control points
in reverse order, arc sweep flag flipped.  The segment kind is unchanged. -/
def Segment.reversed : Segment → Segment
  | .line s e => .line e s
  | .quadratic s c e => .quadratic e c s
  | .cubic s c1 c2 e => .cubic e c2 c1 s
  | .arc s r rot la sw e => .arc e r rot la (!sw) s

/-- A `Path` is an ordered list of segments. -/
abbrev SPath := List Segment

/-- `path.start` (`svgpathtools`): start of the first segment.  The Python
attribute is undefined on an empty path; the model returns `(0, 0)` there,
a branch never reached by the joiner on nonempty paths. -/
def pathStart (p : SPath) : ℚ × ℚ :=
  match p with
  | [] => (0, 0)
  | s :: _ => s.startPoint

/-- `path.end` (`svgpathtools`): end of the last segment (junk `(0,0)` on
the empty path, as for `pathStart`). -/
def pathEnd (p : SPath) : ℚ × ℚ :=
  match p.getLast? with
  | some s => s.endPoint
  | none => (0, 0)

/-- `path.reversed()` of `svgpathtools`: segments in reverse order, each
segment reversed. -/
def reversedPath (p : SPath) : SPath :=
  (p.map Segment.reversed).reverse

/-! ## `SVGPathJoinerRemoveMRegex` (svg_path_joiner.py) -/

/-- `_paths_connect` (svg_path_joiner.py:118-139): two paths connect when any
of the four endpoint pairs is within the tolerance. -/
def paths_connect (tol : ℚ) (path1 path2 : SPath) : Prop :=
  distLE tol (pathEnd path1) (pathStart path2) ∨
  distLE tol (pathStart path1) (pathEnd path2) ∨
  distLE tol (pathEnd path1) (pathEnd path2) ∨
  distLE tol (pathStart path1) (pathStart path2)

instance (tol : ℚ) (p q : SPath) : Decidable (paths_connect tol p q) := by
  unfold paths_connect; exact inferInstance

/-- `graph[i].append(j)` on an adjacency-list graph. -/
def appendAdj (g : List (List ℕ)) (i j : ℕ) : List (List ℕ) :=
  g.set i (g.getD i [] ++ [j])

/-- The graph-building double loop of `_find_connected_components`
(svg_path_joiner.py:90-96): for `i < j`, an edge in both directions when
`_paths_connect(paths[i], paths[j])`. -/
def build_connection_graph (tol : ℚ) (paths : List SPath) : List (List ℕ) :=
  let n := paths.length
  (List.range n).foldl
    (fun g i =>
      ((List.range n).drop (i + 1)).foldl
        (fun g j =>
          if paths_connect tol (paths.getD i []) (paths.getD j [])
          then appendAdj (appendAdj g i j) j i
          else g)
        g)
    (List.replicate n [])

/-- The DFS stack loop of `_find_connected_components`
(svg_path_joiner.py:105-112).  The Python stack is a list popped from the
end; it is modelled head-first, so `stack.extend(graph[node])` becomes
prepending the reversed adjacency list.  `fuel` bounds the number of loop
iterations; each iteration pops one entry, and callers pass fuel exceeding
the total number of pushes. -/
def dfs_component (graph : List (List ℕ)) :
    ℕ → List ℕ → List ℕ → List ℕ → List ℕ × List ℕ
  | 0, _, visited, comp => (visited, comp)
  | _ + 1, [], visited, comp => (visited, comp)
  | fuel + 1, node :: stack, visited, comp =>
    if node ∈ visited then
      dfs_component graph fuel stack visited comp
    else
      dfs_component graph fuel ((graph.getD node []).reverse ++ stack)
        (visited ++ [node]) (comp ++ [node])

/-- `_find_connected_components` (svg_path_joiner.py:80-116): build the
connectivity graph, then collect DFS components from each unvisited start
node in index order. -/
def find_connected_components (tol : ℚ) (paths : List SPath) : List (List ℕ) :=
  let graph := build_connection_graph tol paths
  let n := paths.length
  let fuel := 1 + n + (graph.map List.length).sum
  ((List.range n).foldl
    (fun (acc : List ℕ × List (List ℕ)) startNode =>
      if startNode ∈ acc.1 then acc
      else
        let r := dfs_component graph fuel [startNode] acc.1 []
        (r.1, acc.2 ++ [r.2]))
    ([], [])).2

/-- The four candidate connections tried by `_find_best_connection`. -/
inductive ConnType
  | endToStart | startToEnd | endToEnd | startToStart
  deriving DecidableEq

/-- `_find_best_connection` (svg_path_joiner.py:208-244): measure the four
endpoint-pair distances, keep those within the tolerance, return the
closest one (first wins ties, as Python's `min`).  Candidates carry the
squared distance; the tolerance filter and the minimum comparisons are the
source's comparisons of true Euclidean distances, via `sqrtLE`/`sqrtLT`. -/
def find_best_connection (tol : ℚ) (segments : List Segment) (path : SPath) :
    Option (ConnType × ℚ) :=
  match segments with
  | [] => none
  | _ :: _ =>
    let firstPoint := pathStart segments
    let lastPoint := pathEnd segments
    let pStart := pathStart path
    let pEnd := pathEnd path
    let connections : List (ConnType × ℚ) :=
      [(ConnType.endToStart, dist2 lastPoint pStart),
       (ConnType.startToEnd, dist2 firstPoint pEnd),
       (ConnType.endToEnd, dist2 lastPoint pEnd),
       (ConnType.startToStart, dist2 firstPoint pStart)]
    match connections.foldr (fun c acc => if sqrtLE c.2 tol then c :: acc else acc) [] with
    | [] => none
    | c :: cs => some (cs.foldl (fun best x => if sqrtLT x.2 best.2 then x else best) c)

/-- The candidate-selection loop of `_join_path_component`
(svg_path_joiner.py:165-177), with `i` the `enumerate` counter: keep the
index/connection with the strictly smallest distance (`best_distance`
starts at infinity, modelled by `none`). -/
def pick_best_loop (tol : ℚ) (segments : List Segment) :
    ℕ → Option (ℕ × ConnType × ℚ) → List SPath → Option (ℕ × ConnType × ℚ)
  | _, best, [] => best
  | i, best, path :: rest =>
    let best' :=
      match find_best_connection tol segments path with
      | none => best
      | some (ct, d2) =>
        match best with
        | none => some (i, ct, d2)
        | some b => if sqrtLT d2 b.2.2 then some (i, ct, d2) else best
    pick_best_loop tol segments (i + 1) best' rest

/-- The candidate selection of `_join_path_component` over all remaining
paths (svg_path_joiner.py:165-177). -/
def pick_best_connection (tol : ℚ) (segments : List Segment)
    (remaining : List SPath) : Option (ℕ × ConnType × ℚ) :=
  pick_best_loop tol segments 0 none remaining

/-- The `while remaining_paths` loop of `_join_path_component`
(svg_path_joiner.py:164-203): attach the best-connecting remaining path to
the growing segment list (reversing it for end-to-end / start-to-start
connections), or `break` when no remaining path connects.  `fuel` is the
number of remaining paths, which bounds the number of attachments. -/
def join_component_loop (tol : ℚ) :
    ℕ → List Segment → List SPath → List Segment
  | 0, segs, _ => segs
  | _ + 1, segs, [] => segs
  | fuel + 1, segs, remaining =>
    match pick_best_connection tol segs remaining with
    | none => segs
    | some (bi, ct, _) =>
      let pathToConnect := remaining.getD bi []
      let segs' :=
        match ct with
        | ConnType.endToStart => segs ++ pathToConnect
        | ConnType.startToEnd => pathToConnect ++ segs
        | ConnType.endToEnd => segs ++ reversedPath pathToConnect
        | ConnType.startToStart => reversedPath pathToConnect ++ segs
      join_component_loop tol fuel segs' (remaining.eraseIdx bi)

/-- `_join_path_component` (svg_path_joiner.py:141-206): seed the chain with
the component's first path, then run the attachment loop over the rest. -/
def join_path_component (tol : ℚ) (paths : List SPath) (component : List ℕ) :
    Option SPath :=
  match component with
  | [] => none
  | [i] => some (paths.getD i [])
  | i :: rest =>
    let current := paths.getD i []
    let remaining := rest.map (fun j => paths.getD j [])
    some (join_component_loop tol remaining.length current remaining)

/-- `join_paths` (svg_path_joiner.py:44-78): empty input returns the empty
list; otherwise each connected component becomes one output path
(singleton components pass through; a falsy — empty — joined path is
skipped, mirroring `if joined_path:`). -/
def join_paths (tol : ℚ) (paths : List SPath) : List SPath :=
  if paths = [] then []
  else
    (find_connected_components tol paths).foldl
      (fun joined component =>
        if component.length = 1 then joined ++ [paths.getD (component.headD 0) []]
        else
          match join_path_component tol paths component with
          | some jp => if jp = [] then joined else joined ++ [jp]
          | none => joined)
      []

/-- Path A of the spec's join scenario: `Line((0,0),(10,0))`, scaled to unit
length together with `pB`/`pC` below as a concrete three-path input. -/
def pA : SPath := [Segment.line (0, 0) (1, 0)]

/-- Second concrete path: `Line((1,0),(2,0))`, sharing endpoint `(1,0)`
with `pA`. -/
def pB : SPath := [Segment.line (1, 0) (2, 0)]

/-- Third concrete path: `Line((1,0),(1,1))`, also sharing endpoint `(1,0)`
with `pA` and `pB` (the three form a Y-shaped connected component). -/
def pC : SPath := [Segment.line (1, 0) (1, 1)]

/-! ## Pass scheduling (`GCodeTools.svg_to_gcode`, gcodetools.py:639-697) -/

/-- `cut_depth_per_pass = self.params.material_thickness /
self.params.number_of_passes` (gcodetools.py:640). -/
def cut_depth_per_pass (thickness : ℚ) (passes : ℕ) : ℚ :=
  thickness / passes

/-- `pass_cut_depth = cut_depth_per_pass * (pass_num + 1)`
(gcodetools.py:667): the scheduled cut depth of 0-based pass `passNum`. -/
def pass_cut_depth (thickness : ℚ) (passes : ℕ) (passNum : ℕ) : ℚ :=
  cut_depth_per_pass thickness passes * (passNum + 1)

/-! ## Coordinate transform (`KnifeInterface.transform_coordinates`,
gcodetools.py:391-416) -/

/-- `transform_coordinates` (gcodetools.py:391-416).  `svgBounds` is
`(min_x, min_y, max_x, max_y)`, `none` when unset; the source's guard
`if not self.params.origin_top_left or not self.svg_bounds: return x, y`
is the `none` branch together with the `originTopLeft = false` branch. -/
def transform_coordinates (originTopLeft mirrorX mirrorY : Bool)
    (svgBounds : Option (ℚ × ℚ × ℚ × ℚ)) (x y : ℚ) : ℚ × ℚ :=
  match svgBounds with
  | none => (x, y)
  | some (minX, minY, maxX, maxY) =>
    if originTopLeft = false then (x, y)
    else
      let offsetX := x - minX
      let offsetY := y - minY
      let contentHeight := maxY - minY
      let flippedY := contentHeight - offsetY
      let offsetX2 := if mirrorX then (maxX - minX) - offsetX else offsetX
      let flippedY2 := if mirrorY then contentHeight - flippedY else flippedY
      (offsetX2, flippedY2)

/-- The coordinate transform as the specification words it: pass through when
`origin_top_left` is false; otherwise anchor at `bounds.min`, flip the
vertical axis against the content height, then apply `mirror_x` and
`mirror_y` in that order. -/
def transform_from_spec (originTopLeft mirrorX mirrorY : Bool)
    (minX minY maxX maxY x y : ℚ) : ℚ × ℚ :=
  if originTopLeft = false then (x, y)
  else
    let base : ℚ × ℚ := (x - minX, (maxY - minY) - (y - minY))
    let afterMX : ℚ × ℚ := if mirrorX then ((maxX - minX) - (x - minX), base.2) else base
    if mirrorY then (afterMX.1, (maxY - minY) - afterMX.2) else afterMX

/-! ## Tool-lift elision (`GCodeTools._optimize_tool_lifts`, first pass,
gcodetools.py:979-1015) -/

/-- A G-code line as the post-processor's textual pattern tests see it:
`zmove z` is a line starting with `"G1 Z"` and containing `"F"`
(`G1 Z{z} F{f}` — the rendering of tool-up and tool-down); `xymove x y` is
a line starting with `"G1 X"` and containing `"F"`
(`G1 X{x} Y{y} F{f}` — the rendering of an XY move); `other` is any other
line. -/
inductive GLine
  | zmove (z : ℚ)
  | xymove (x y : ℚ)
  | other
  deriving DecidableEq

/-- `_extract_position_from_line` (gcodetools.py:1059-1066): the `(x, y)`
position when the line has both an X and a Y match, else `None`. -/
def extract_position_from_line : GLine → Option (ℚ × ℚ)
  | GLine.xymove x y => some (x, y)
  | _ => none

/-- `_positions_close` (gcodetools.py:1068-1073):
`sqrt((x1-x2)^2 + (y1-y2)^2) <= tolerance`. -/
def positions_close (pos1 pos2 : ℚ × ℚ) (tol : ℚ) : Prop :=
  sqrtLE (dist2 pos1 pos2) tol

instance (pos1 pos2 : ℚ × ℚ) (tol : ℚ) : Decidable (positions_close pos1 pos2 tol) :=
  inferInstanceAs (Decidable (sqrtLE (dist2 pos1 pos2) tol))

/-- The elision guard `last_cutting_position and rapid_pos and
self._positions_close(last_cutting_position, rapid_pos, tolerance)`
(gcodetools.py:1002-1003); `rapid_pos` is always present for an `xymove`. -/
def lift_pattern_close (tol : ℚ) (lastCutting : Option (ℚ × ℚ))
    (rapidPos : ℚ × ℚ) : Prop :=
  match lastCutting with
  | some q => positions_close q rapidPos tol
  | none => False

instance (tol : ℚ) (lastCutting : Option (ℚ × ℚ)) (rapidPos : ℚ × ℚ) :
    Decidable (lift_pattern_close tol lastCutting rapidPos) :=
  match lastCutting with
  | some q => inferInstanceAs (Decidable (positions_close q rapidPos tol))
  | none => inferInstanceAs (Decidable False)

/-- First pass of `_optimize_tool_lifts` (gcodetools.py:984-1015): scan for
`G1 Z… → G1 X… → G1 Z…`; when the middle move's target is within tolerance
of the tracked last cutting position, keep only the final Z line and skip
the other two; otherwise emit the head line and continue from the next
line.  Any `G1 X… F…` line updates the tracked last cutting position. -/
def optimize_tool_lifts_pass1 (tol : ℚ) :
    Option (ℚ × ℚ) → List GLine → List GLine
  | _, [] => []
  | last, GLine.zmove z1 :: GLine.xymove x y :: GLine.zmove z3 :: rest =>
    if lift_pattern_close tol last (x, y) then
      GLine.zmove z3 :: optimize_tool_lifts_pass1 tol last rest
    else
      GLine.zmove z1 ::
        optimize_tool_lifts_pass1 tol last (GLine.xymove x y :: GLine.zmove z3 :: rest)
  | _, GLine.xymove x y :: rest =>
    GLine.xymove x y :: optimize_tool_lifts_pass1 tol (some (x, y)) rest
  | last, l :: rest => l :: optimize_tool_lifts_pass1 tol last rest
  termination_by _ lines => lines.length
  decreasing_by all_goals simp [List.length] <;> omega

/-! ## Knife offset compensator (`KnifeOffsetCompensator`,
gcodetools.py:75-257), over ℝ -/

/-- `_get_direction_vector` (gcodetools.py:167-173): normalized direction
from `p1` to `p2`, defaulting to `(1, 0)` for coincident points. -/
noncomputable def get_direction_vector (p1 p2 : ℝ × ℝ) : ℝ × ℝ :=
  let d : ℝ × ℝ := (p2.1 - p1.1, p2.2 - p1.2)
  let length := Real.sqrt (d.1 ^ 2 + d.2 ^ 2)
  if length = 0 then (1, 0) else (d.1 / length, d.2 / length)

/-- `_offset_point_perpendicular` (gcodetools.py:154-165): displace `point`
by `offset` along the perpendicular `(direction[1], -direction[0])`. -/
noncomputable def offset_point_perpendicular (point direction : ℝ × ℝ)
    (offset : ℝ) : ℝ × ℝ :=
  (point.1 + direction.2 * offset, point.2 + -direction.1 * offset)

open Classical in
/-- `_calculate_geometric_offset` (gcodetools.py:109-152): first point uses
the direction to the next point, the last point the direction from the
previous point, interior points the normalized average of the incoming and
outgoing directions.  The interior normalization has no zero guard in the
source (NumPy would produce NaN); Lean division by zero yields `0`; no
claim exercises that branch. -/
noncomputable def calculate_geometric_offset (offset : ℝ)
    (points : List (ℝ × ℝ)) : List (ℝ × ℝ) :=
  if points.length < 2 then points
  else
    (List.range points.length).map (fun i =>
      if i = 0 then
        offset_point_perpendicular (points.getD 0 (0, 0))
          (get_direction_vector (points.getD 0 (0, 0)) (points.getD 1 (0, 0))) offset
      else if i = points.length - 1 then
        offset_point_perpendicular (points.getD i (0, 0))
          (get_direction_vector (points.getD (i - 1) (0, 0)) (points.getD i (0, 0))) offset
      else
        let dirIn := get_direction_vector (points.getD (i - 1) (0, 0)) (points.getD i (0, 0))
        let dirOut := get_direction_vector (points.getD i (0, 0)) (points.getD (i + 1) (0, 0))
        let avg : ℝ × ℝ := ((dirIn.1 + dirOut.1) / 2, (dirIn.2 + dirOut.2) / 2)
        let n := Real.sqrt (avg.1 ^ 2 + avg.2 ^ 2)
        offset_point_perpendicular (points.getD i (0, 0)) (avg.1 / n, avg.2 / n) offset)

/-- `_calculate_angle` (gcodetools.py:222-231): the arc cosine of the
clipped cosine of the angle at vertex `p2` between the vectors `p1 - p2`
and `p3 - p2` (`np.clip(c, -1, 1)` is `min (max c (-1)) 1`). -/
noncomputable def calculate_angle (p1 p2 p3 : ℝ × ℝ) : ℝ :=
  let v1 : ℝ × ℝ := (p1.1 - p2.1, p1.2 - p2.2)
  let v2 : ℝ × ℝ := (p3.1 - p2.1, p3.2 - p2.2)
  let c := (v1.1 * v2.1 + v1.2 * v2.2) /
    (Real.sqrt (v1.1 ^ 2 + v1.2 ^ 2) * Real.sqrt (v2.1 ^ 2 + v2.2 ^ 2))
  Real.arccos (min (max c (-1)) 1)

open Classical in
/-- `_calculate_bisector` of `KnifeOffsetCompensator` (gcodetools.py:175-183):
normalized sum of the two directions, or the perpendicular of the first
when the sum is zero. -/
noncomputable def calculate_bisector (dir1 dir2 : ℝ × ℝ) : ℝ × ℝ :=
  let b : ℝ × ℝ := (dir1.1 + dir2.1, dir1.2 + dir2.2)
  let length := Real.sqrt (b.1 ^ 2 + b.2 ^ 2)
  if length = 0 then (-dir1.2, dir1.1) else (b.1 / length, b.2 / length)

/-- `_create_corner_loop` (gcodetools.py:233-257): six points
(`num_steps = 5`, `range(num_steps + 1)`), the `i`-th at
`p2 + bisector * radius * (1 - i/5)`. -/
noncomputable def create_corner_loop (radius : ℝ) (p1 p2 p3 : ℝ × ℝ) :
    List (ℝ × ℝ) :=
  let dirIn := get_direction_vector p1 p2
  let dirOut := get_direction_vector p2 p3
  let b := calculate_bisector dirIn dirOut
  (List.range 6).map (fun (i : ℕ) =>
    (p2.1 + b.1 * radius * (1 - (i : ℝ) / 5), p2.2 + b.2 * radius * (1 - (i : ℝ) / 5)))

open Classical in
/-- The interior loop of `_add_corner_loops` (gcodetools.py:204-219): each
interior point whose `_calculate_angle` exceeds `π/4` in magnitude is
replaced by a corner loop, otherwise kept; the trailing base case appends
the final point. -/
noncomputable def add_corner_loops_go (radius : ℝ) :
    ℝ × ℝ → ℝ × ℝ → List (ℝ × ℝ) → List (ℝ × ℝ)
  | _, curr, [] => [curr]
  | prev, curr, next :: rest =>
    (if |calculate_angle prev curr next| > Real.pi / 4
     then create_corner_loop radius prev curr next
     else [curr]) ++ add_corner_loops_go radius curr next rest

/-- `_add_corner_loops` (gcodetools.py:192-220): paths with fewer than three
points pass through; otherwise the first point, the processed interior,
and the last point. -/
noncomputable def add_corner_loops (radius : ℝ) (points : List (ℝ × ℝ)) :
    List (ℝ × ℝ) :=
  if points.length < 3 then points
  else
    match points with
    | p1 :: p2 :: rest => p1 :: add_corner_loops_go radius p1 p2 rest
    | l => l

open Classical in
/-- `compensate_path` (gcodetools.py:82-107): identity for fewer than two
points or zero offset, else the geometric offset followed by corner-loop
augmentation. -/
noncomputable def compensate_path (offset cornerLoopRadius : ℝ)
    (points : List (ℝ × ℝ)) : List (ℝ × ℝ) :=
  if points.length < 2 ∨ offset = 0 then points
  else add_corner_loops cornerLoopRadius (calculate_geometric_offset offset points)

/-! ## Swivel-aware offset (`GCodeTools`, gcodetools.py:1402-1533), over ℝ -/

open Classical in
/-- `_get_direction` (gcodetools.py:1526-1533): normalized direction from
`p1` to `p2` with `(1, 0)` default (`math.sqrt(dx*dx + dy*dy)`). -/
noncomputable def get_direction (p1 p2 : ℝ × ℝ) : ℝ × ℝ :=
  let dx := p2.1 - p1.1
  let dy := p2.2 - p1.2
  let length := Real.sqrt (dx * dx + dy * dy)
  if length = 0 then (1, 0) else (dx / length, dy / length)

/-- `_angle_between_vectors` (gcodetools.py:1470-1474):
`acos(max(-1.0, min(1.0, dot)))`. -/
noncomputable def angle_between_vectors (v1 v2 : ℝ × ℝ) : ℝ :=
  Real.arccos (max (-1) (min 1 (v1.1 * v2.1 + v1.2 * v2.2)))

open Classical in
/-- `_calculate_swivel_direction` (gcodetools.py:1402-1444).  `sens` is
`swivel_sensitivity`, `threshDeg` is `sharp_corner_threshold` in degrees
(`math.radians` is multiplication by `π/180`). -/
noncomputable def calculate_swivel_direction (sens threshDeg : ℝ)
    (prevPoint currPoint nextPoint : ℝ × ℝ) : ℝ × ℝ :=
  let dirIn := get_direction prevPoint currPoint
  let dirOut := get_direction currPoint nextPoint
  let angle := angle_between_vectors dirIn dirOut
  let sharpThreshold := threshDeg * Real.pi / 180
  let weight_out : ℝ :=
    if |angle| > sharpThreshold then 0.5 + sens * 0.3 else 0.4 + sens * 0.4
  let weight_in : ℝ :=
    if |angle| > sharpThreshold then 0.5 - sens * 0.3 else 0.6 - sens * 0.4
  let sd : ℝ × ℝ :=
    (weight_in * dirIn.1 + weight_out * dirOut.1,
     weight_in * dirIn.2 + weight_out * dirOut.2)
  let length := Real.sqrt (sd.1 ^ 2 + sd.2 ^ 2)
  if length > 0 then (sd.1 / length, sd.2 / length) else sd

/-- `_calculate_swivel_offset` (gcodetools.py:1446-1468): displace `point`
by `offset` along the perpendicular `(direction[1], -direction[0])`. -/
noncomputable def calculate_swivel_offset (point direction : ℝ × ℝ)
    (offset : ℝ) : ℝ × ℝ :=
  (point.1 + direction.2 * offset, point.2 + -direction.1 * offset)

open Classical in
/-- The swivel direction as the claim words it: the normalized weighted sum
of the incoming and outgoing unit directions, with
`weight_out = 0.5 + 0.3·s`, `weight_in = 0.5 - 0.3·s` when the turn angle
magnitude exceeds the threshold and `weight_out = 0.4 + 0.4·s`,
`weight_in = 0.6 - 0.4·s` otherwise (normalization is division by the
Euclidean norm; on the zero vector Lean division yields the zero vector). -/
noncomputable def swivel_direction_from_spec (sens threshDeg : ℝ)
    (prevPoint currPoint nextPoint : ℝ × ℝ) : ℝ × ℝ :=
  let dirIn := get_direction prevPoint currPoint
  let dirOut := get_direction currPoint nextPoint
  let turn := Real.arccos (dirIn.1 * dirOut.1 + dirIn.2 * dirOut.2)
  let wOut : ℝ :=
    if |turn| > threshDeg * Real.pi / 180 then 0.5 + 0.3 * sens else 0.4 + 0.4 * sens
  let wIn : ℝ :=
    if |turn| > threshDeg * Real.pi / 180 then 0.5 - 0.3 * sens else 0.6 - 0.4 * sens
  let sd : ℝ × ℝ := (wIn * dirIn.1 + wOut * dirOut.1, wIn * dirIn.2 + wOut * dirOut.2)
  (sd.1 / Real.sqrt (sd.1 ^ 2 + sd.2 ^ 2), sd.2 / Real.sqrt (sd.1 ^ 2 + sd.2 ^ 2))

/-- The per-point displacement as the claim words it: `offset` times the
perpendicular `(dy, -dx)` of the reference direction `(dx, dy)`. -/
def swivel_offset_from_spec (point direction : ℝ × ℝ) (offset : ℝ) : ℝ × ℝ :=
  (point.1 + offset * direction.2, point.2 + offset * -direction.1)

/-! ## Supporting lemmas -/

/-- `get_direction` always returns a unit vector (its zero-length default
`(1, 0)` included). -/
theorem get_direction_unit (p1 p2 : ℝ × ℝ) :
    (get_direction p1 p2).1 ^ 2 + (get_direction p1 p2).2 ^ 2 = 1 := by
  unfold get_direction
  by_cases h : Real.sqrt ((p2.1 - p1.1) * (p2.1 - p1.1) + (p2.2 - p1.2) * (p2.2 - p1.2)) = 0
  · simp [h]
  · have hpos : 0 < (p2.1 - p1.1) * (p2.1 - p1.1) + (p2.2 - p1.2) * (p2.2 - p1.2) := by
      rcases lt_or_le 0 ((p2.1 - p1.1) * (p2.1 - p1.1) + (p2.2 - p1.2) * (p2.2 - p1.2))
        with hp | hp
      · exact hp
      · exact absurd (Real.sqrt_eq_zero_of_nonpos hp) h
    have hsq :
        Real.sqrt ((p2.1 - p1.1) * (p2.1 - p1.1) + (p2.2 - p1.2) * (p2.2 - p1.2)) ^ 2
          = (p2.1 - p1.1) * (p2.1 - p1.1) + (p2.2 - p1.2) * (p2.2 - p1.2) :=
      Real.sq_sqrt hpos.le
    simp only [h, if_false]
    have hrw :
        ((p2.1 - p1.1) /
            Real.sqrt ((p2.1 - p1.1) * (p2.1 - p1.1) + (p2.2 - p1.2) * (p2.2 - p1.2))) ^ 2 +
          ((p2.2 - p1.2) /
            Real.sqrt ((p2.1 - p1.1) * (p2.1 - p1.1) + (p2.2 - p1.2) * (p2.2 - p1.2))) ^ 2
          = ((p2.1 - p1.1) * (p2.1 - p1.1) + (p2.2 - p1.2) * (p2.2 - p1.2)) /
              Real.sqrt ((p2.1 - p1.1) * (p2.1 - p1.1) + (p2.2 - p1.2) * (p2.2 - p1.2)) ^ 2 := by
      ring
    rw [hrw, hsq]
    exact div_self hpos.ne'

/-- The clamp `max(-1, min(1, dot))` is the identity on the dot product of
two unit vectors (Cauchy–Schwarz in the plane). -/
theorem dot_clamp_of_unit {u v : ℝ × ℝ} (hu : u.1 ^ 2 + u.2 ^ 2 = 1)
    (hv : v.1 ^ 2 + v.2 ^ 2 = 1) :
    max (-1) (min 1 (u.1 * v.1 + u.2 * v.2)) = u.1 * v.1 + u.2 * v.2 := by
  have h1 : u.1 * v.1 + u.2 * v.2 ≤ 1 := by
    nlinarith [sq_nonneg (u.1 - v.1), sq_nonneg (u.2 - v.2)]
  have h2 : -1 ≤ u.1 * v.1 + u.2 * v.2 := by
    nlinarith [sq_nonneg (u.1 + v.1), sq_nonneg (u.2 + v.2)]
  rw [min_eq_right h1, max_eq_right h2]

/-- The guarded normalization `if length > 0 then v / length else v` equals
plain division by the norm: when the norm is zero the vector is zero and
division by zero yields the zero vector. -/
theorem normalize_if_eq (a b : ℝ) :
    (if Real.sqrt (a ^ 2 + b ^ 2) > 0
     then ((a / Real.sqrt (a ^ 2 + b ^ 2), b / Real.sqrt (a ^ 2 + b ^ 2)) : ℝ × ℝ)
     else (a, b))
      = (a / Real.sqrt (a ^ 2 + b ^ 2), b / Real.sqrt (a ^ 2 + b ^ 2)) := by
  by_cases h : Real.sqrt (a ^ 2 + b ^ 2) > 0
  · simp [h]
  · have h0 : Real.sqrt (a ^ 2 + b ^ 2) = 0 :=
      le_antisymm (not_lt.mp h) (Real.sqrt_nonneg _)
    have hab : a ^ 2 + b ^ 2 ≤ 0 := Real.sqrt_eq_zero'.mp h0
    have ha : a = 0 := by nlinarith [sq_nonneg a, sq_nonneg b]
    have hb : b = 0 := by nlinarith [sq_nonneg a, sq_nonneg b]
    simp [h, ha, hb]

/-! ## Claim theorems -/

/-- C2 counterexample: with material thickness `0` (allowed by the claim's
`t >= 0`) and `2` passes the scheduled depths are `[0, 0]`, so depths do
not strictly increase as the claim states. -/
theorem c2_zero_thickness_not_strict :
    ¬ pass_cut_depth 0 2 0 < pass_cut_depth 0 2 1 := by
  norm_num [pass_cut_depth, cut_depth_per_pass]

/-- C2 (amended): for thickness `t ≥ 0` and `N ≥ 1` passes, pass `i` cuts at
depth `t/N·(i+1)`, the last pass reaches exactly `t`, and the depths
strictly increase provided `t > 0` (strictness fails at `t = 0`). -/
theorem c2_pass_depth_schedule (t : ℚ) (N i : ℕ) (ht : 0 ≤ t) (hN : 1 ≤ N) :
    pass_cut_depth t N i = t / N * (i + 1) ∧
    (0 < t → pass_cut_depth t N i < pass_cut_depth t N (i + 1)) ∧
    pass_cut_depth t N (N - 1) = t := by
  have hN0 : (0 : ℚ) < (N : ℚ) := by exact_mod_cast hN
  refine ⟨rfl, ?_, ?_⟩
  · intro htpos
    unfold pass_cut_depth cut_depth_per_pass
    have hq : (0 : ℚ) < t / N := div_pos htpos hN0
    have hstep : ((i : ℚ) + 1) < ((i + 1 : ℕ) : ℚ) + 1 := by push_cast; linarith
    exact mul_lt_mul_of_pos_left hstep hq
  · unfold pass_cut_depth cut_depth_per_pass
    have hsub : ((N - 1 : ℕ) : ℚ) = (N : ℚ) - 1 := by
      push_cast [Nat.cast_sub hN]
      ring
    rw [hsub, sub_add_cancel, div_mul_cancel₀ t hN0.ne']

/-- C2 witness: the spec's 3-pass scenario at thickness `0.6 = 3/5`:
hypotheses hold, depth 0 is below depth 1, and the last pass depth is the
thickness. -/
theorem c2_pass_depth_schedule_witness :
    (0 : ℚ) ≤ 3/5 ∧ pass_cut_depth (3/5) 3 0 < pass_cut_depth (3/5) 3 1 ∧
      pass_cut_depth (3/5) 3 2 = 3/5 :=
  ⟨by norm_num,
   (c2_pass_depth_schedule (3/5) 3 0 (by norm_num) (by norm_num)).2.1 (by norm_num),
   (c2_pass_depth_schedule (3/5) 3 2 (by norm_num) (by norm_num)).2.2⟩

/-- C6: `transform_coordinates` equals the step-by-step transform of the
specification (anchor, flip, `mirror_x`, `mirror_y`, in that order); with
`origin_top_left` false the point passes through unchanged; and the
`mirror_y` branch composed with the flip yields `y - min_y`. -/
theorem c6_transform (otl mx my : Bool) (minX minY maxX maxY x y : ℚ) :
    transform_coordinates otl mx my (some (minX, minY, maxX, maxY)) x y
      = transform_from_spec otl mx my minX minY maxX maxY x y ∧
    transform_coordinates false mx my (some (minX, minY, maxX, maxY)) x y = (x, y) ∧
    (transform_coordinates true mx true (some (minX, minY, maxX, maxY)) x y).2
      = y - minY := by
  refine ⟨?_, ?_, ?_⟩ <;>
    cases otl <;> cases mx <;> cases my <;>
      simp [transform_coordinates, transform_from_spec]

/-- C9 counterexample: presenting the empty path list to `join_paths`
(default tolerance `0.001`) silently returns the empty list — no error is
raised, contradicting the claim that an empty input must fail. -/
theorem c9_empty_input_returns_empty : join_paths (1/1000) [] = [] := by
  simp [join_paths]

/-- C9 (amended): for every tolerance, `join_paths` on the empty path list
returns the empty list (`if not self.paths: return [], []`); the joiner
returns an empty result silently rather than raising an error. -/
theorem c9_join_empty (tol : ℚ) : join_paths tol [] = [] := by
  simp [join_paths]

/-- C5: compensating with offset `0` is the identity, and any list of fewer
than two points passes through unchanged for every offset. -/
theorem c5_compensate_passthrough (offset radius : ℝ) (pts qts : List (ℝ × ℝ)) :
    compensate_path 0 radius qts = qts ∧
    (pts.length < 2 → compensate_path offset radius pts = pts) := by
  constructor
  · simp [compensate_path]
  · intro h; simp [compensate_path, h]

/-- C5 witness: a one-point path is unchanged under offset `3`, and a
three-point path is unchanged under offset `0`. -/
theorem c5_compensate_passthrough_witness :
    ([((1 : ℝ), (2 : ℝ))].length < 2) ∧
    compensate_path 3 4 [((1 : ℝ), (2 : ℝ))] = [((1 : ℝ), (2 : ℝ))] ∧
    compensate_path 0 4 [((0 : ℝ), 0), (1, 0), (2, 0)] = [((0 : ℝ), 0), (1, 0), (2, 0)] :=
  ⟨by simp,
   (c5_compensate_passthrough 3 4 [((1 : ℝ), (2 : ℝ))]
      [((0 : ℝ), 0), (1, 0), (2, 0)]).2 (by simp),
   (c5_compensate_passthrough 3 4 [((1 : ℝ), (2 : ℝ))]
      [((0 : ℝ), 0), (1, 0), (2, 0)]).1⟩

/-- C10: every corner loop consists of exactly 6 points (5 interpolation
steps plus the endpoint), and its final point is exactly the corner point
`p2` it replaces. -/
theorem c10_corner_loop_shape (radius : ℝ) (p1 p2 p3 : ℝ × ℝ) :
    (create_corner_loop radius p1 p2 p3).length = 6 ∧
    (create_corner_loop radius p1 p2 p3).getLast? = some p2 := by
  constructor
  · unfold create_corner_loop
    rw [List.length_map, List.length_range]
  · unfold create_corner_loop
    simp only [List.range_succ, List.map_append, List.map_cons, List.map_nil]
    rw [List.getLast?_concat]
    norm_num

/-- C7: in the tool-lift elision pass, for the pattern
`G1 Z (tool-up) → G1 X (move to p) → G1 Z (tool-down)` with tracked last
cutting position `q`: when `p` is within tolerance of `q`, the tool-up and
the move are dropped and only the tool-down is kept; when it is not, all
three lines are emitted unchanged (the scan continuing after them); and
every `G1 X… F…` line updates the tracked last cutting position. -/
theorem c7_tool_lift_elision (tol z1 x y z3 : ℚ) (q : ℚ × ℚ) (rest : List GLine) :
    (positions_close q (x, y) tol →
      optimize_tool_lifts_pass1 tol (some q)
          (GLine.zmove z1 :: GLine.xymove x y :: GLine.zmove z3 :: rest)
        = GLine.zmove z3 :: optimize_tool_lifts_pass1 tol (some q) rest) ∧
    (¬ positions_close q (x, y) tol →
      optimize_tool_lifts_pass1 tol (some q)
          (GLine.zmove z1 :: GLine.xymove x y :: GLine.zmove z3 :: rest)
        = GLine.zmove z1 :: GLine.xymove x y ::
            optimize_tool_lifts_pass1 tol (some (x, y)) (GLine.zmove z3 :: rest)) ∧
    (∀ (last : Option (ℚ × ℚ)) (a b : ℚ) (l : List GLine),
      optimize_tool_lifts_pass1 tol last (GLine.xymove a b :: l)
        = GLine.xymove a b :: optimize_tool_lifts_pass1 tol (some (a, b)) l) := by
  refine ⟨fun h => ?_, fun h => ?_, fun last a b l => ?_⟩
  · rw [optimize_tool_lifts_pass1]
    simp [lift_pattern_close, h]
  · rw [optimize_tool_lifts_pass1]
    simp only [lift_pattern_close, h, if_false, if_neg]
    rw [optimize_tool_lifts_pass1]
  · rw [optimize_tool_lifts_pass1]

/-- C7 witness: the spec's synthetic stream after a cut ending at `(5,5)`
with tolerance `0.1`: the lift and the move to `(5,5)` are elided, while a
move to `(9,9)` preserves all three lines. -/
theorem c7_tool_lift_elision_witness :
    positions_close (5, 5) (5, 5) (1/10) ∧
    optimize_tool_lifts_pass1 (1/10) (some (5, 5))
        [GLine.zmove 10, GLine.xymove 5 5, GLine.zmove 0] = [GLine.zmove 0] ∧
    ¬ positions_close (5, 5) (9, 9) (1/10) ∧
    optimize_tool_lifts_pass1 (1/10) (some (5, 5))
        [GLine.zmove 10, GLine.xymove 9 9, GLine.zmove 0]
      = [GLine.zmove 10, GLine.xymove 9 9, GLine.zmove 0] := by
  have hclose : positions_close ((5 : ℚ), (5 : ℚ)) (5, 5) (1/10) := by
    rw [positions_close, sqrtLE_iff]
    norm_num [dist2]
  have hfar : ¬ positions_close ((5 : ℚ), (5 : ℚ)) (9, 9) (1/10) := by
    rw [positions_close, sqrtLE_iff]
    norm_num [dist2]
  refine ⟨hclose, ?_, hfar, ?_⟩
  · rw [(c7_tool_lift_elision (1/10) 10 5 5 0 (5, 5) []).1 hclose]
    simp [optimize_tool_lifts_pass1]
  · rw [(c7_tool_lift_elision (1/10) 10 9 9 0 (5, 5) []).2.1 hfar]
    simp [optimize_tool_lifts_pass1]

/-- Evaluation of the joiner on the Y-shaped three-path input `pA, pB, pC`
(all pairwise connected at `(1,0)`, tolerance `0.01`): the DFS component is
`[0, 2, 1]`, the chain seeded at `pA` attaches `pC` (distance 0 from the
chain end), after which `pB` no longer connects to either chain endpoint,
so the `break` at svg_path_joiner.py:179-181 discards `pB` entirely. -/
theorem join_paths_y_eval :
    join_paths (1/100) [pA, pB, pC]
      = [[Segment.line (0, 0) (1, 0), Segment.line (1, 0) (1, 1)]] := by
  norm_num [pA, pB, pC, join_paths, find_connected_components, build_connection_graph,
    appendAdj, dfs_component, join_path_component, join_component_loop,
    pick_best_connection, pick_best_loop, find_best_connection, paths_connect, distLE,
    sqrtLE_iff, sqrtLT_iff, dist2, pathStart, pathEnd, Segment.startPoint,
    Segment.endPoint, reversedPath, Segment.reversed, List.range_succ]
  simp

/-- C1 failing input: paths `pA` and `pB` have endpoints within the
tolerance `0.01`, yet the joiner's output on `[pA, pB, pC]` is a single
path holding only `pA`'s and `pC`'s segments — `pB`'s segment is in no
output path, contradicting the claim that every connected pair ends up
together in one output `Path`. -/
theorem c1_connected_pair_dropped :
    paths_connect (1/100) pA pB ∧
    join_paths (1/100) [pA, pB, pC]
      = [[Segment.line (0, 0) (1, 0), Segment.line (1, 0) (1, 1)]] := by
  refine ⟨?_, join_paths_y_eval⟩
  norm_num [paths_connect, distLE, sqrtLE_iff, dist2, pA, pB, pathStart, pathEnd,
    Segment.startPoint, Segment.endPoint]

/-- C8 failing input: the input segment `Line((1,0),(2,0))` of `pB` appears
in no path of the joiner's output on `[pA, pB, pC]` — the joiner loses
geometry, contradicting the claim that every input segment appears in the
output. -/
theorem c8_segment_lost_by_join :
    Segment.line (1, 0) (2, 0) ∈ pB ∧
    ∀ p ∈ join_paths (1/100) [pA, pB, pC], Segment.line (1, 0) (2, 0) ∉ p := by
  refine ⟨by simp [pB], ?_⟩
  rw [join_paths_y_eval]
  intro p hp
  simp only [List.mem_singleton] at hp
  subst hp
  norm_num [Segment.line.injEq, Prod.ext_iff]

/-- C3 failing input: on the collinear polyline `[(1,0), (2,0), (3,0)]`
(turn angle 0 at the interior point, which the claim says passes through
unchanged), `_add_corner_loops` nevertheless inserts a 6-point corner loop
— its angle test measures the vertex angle between `p1 - p2` and
`p3 - p2`, which is `π` for collinear points and so exceeds `π/4` — giving
an 8-point result instead of the unchanged 3-point input. -/
theorem c3_collinear_point_gets_corner_loop (radius : ℝ) :
    (add_corner_loops radius [((1 : ℝ), 0), (2, 0), (3, 0)]).length = 8 ∧
    add_corner_loops radius [((1 : ℝ), 0), (2, 0), (3, 0)]
      ≠ [((1 : ℝ), 0), (2, 0), (3, 0)] := by
  have hang : calculate_angle ((1 : ℝ), 0) (2, 0) (3, 0) = Real.pi := by
    unfold calculate_angle
    norm_num
  have hgate : |calculate_angle ((1 : ℝ), 0) (2, 0) (3, 0)| > Real.pi / 4 := by
    rw [hang, abs_of_nonneg Real.pi_pos.le]
    linarith [Real.pi_pos]
  have heval : add_corner_loops radius [((1 : ℝ), 0), (2, 0), (3, 0)]
      = ((1 : ℝ), 0) :: (create_corner_loop radius ((1 : ℝ), 0) (2, 0) (3, 0)
          ++ [((3 : ℝ), 0)]) := by
    unfold add_corner_loops
    norm_num
    simp [add_corner_loops_go, hgate]
  constructor
  · rw [heval]
    simp [create_corner_loop]
  · rw [heval]
    intro hcontra
    have hlen := congrArg List.length hcontra
    simp [create_corner_loop] at hlen

/-- C4: for every interior-point triple, sensitivity and threshold, the
swivel direction computed by the source equals the claim's normalized
weighted sum of the incoming and outgoing unit directions with weights
`0.5 ± 0.3·s` past the sharp threshold and `0.4 + 0.4·s` / `0.6 - 0.4·s`
otherwise; and the swivel offset displaces the point by `offset` times the
perpendicular `(dy, -dx)` of the direction `(dx, dy)`. -/
theorem c4_swivel_direction_and_offset (sens threshDeg offset : ℝ)
    (prevPoint currPoint nextPoint point direction : ℝ × ℝ)
    (hs0 : 0 ≤ sens) (hs1 : sens ≤ 1) :
    calculate_swivel_direction sens threshDeg prevPoint currPoint nextPoint
      = swivel_direction_from_spec sens threshDeg prevPoint currPoint nextPoint ∧
    calculate_swivel_offset point direction offset
      = swivel_offset_from_spec point direction offset := by
  constructor
  · have hu := get_direction_unit prevPoint currPoint
    have hv := get_direction_unit currPoint nextPoint
    simp only [calculate_swivel_direction, swivel_direction_from_spec,
      angle_between_vectors]
    simp only [dot_clamp_of_unit hu hv]
    by_cases hc :
        |Real.arccos ((get_direction prevPoint currPoint).1 *
            (get_direction currPoint nextPoint).1 +
          (get_direction prevPoint currPoint).2 *
            (get_direction currPoint nextPoint).2)|
          > threshDeg * Real.pi / 180
    · simp only [if_pos hc]
      have e1 : (0.5 : ℝ) - sens * 0.3 = 0.5 - 0.3 * sens := by ring
      have e2 : (0.5 : ℝ) + sens * 0.3 = 0.5 + 0.3 * sens := by ring
      rw [e1, e2, normalize_if_eq]
    · simp only [if_neg hc]
      have e1 : (0.6 : ℝ) - sens * 0.4 = 0.6 - 0.4 * sens := by ring
      have e2 : (0.4 : ℝ) + sens * 0.4 = 0.4 + 0.4 * sens := by ring
      rw [e1, e2, normalize_if_eq]
  · simp only [calculate_swivel_offset, swivel_offset_from_spec, Prod.mk.injEq]
    constructor <;> ring

/-- C4 witness: at sensitivity `1/2` (within `[0,1]`), threshold `45°`, on
the right-angle triple `(0,0), (1,0), (1,1)`, and offset `2` at a sample
point: both equalities of the claim hold. -/
theorem c4_swivel_witness :
    (0 : ℝ) ≤ 1/2 ∧ ((1 : ℝ)/2) ≤ 1 ∧
    calculate_swivel_direction (1/2) 45 (0, 0) (1, 0) (1, 1)
      = swivel_direction_from_spec (1/2) 45 (0, 0) (1, 0) (1, 1) ∧
    calculate_swivel_offset (3, 4) (0, 1) 2
      = swivel_offset_from_spec (3, 4) (0, 1) 2 :=
  ⟨by norm_num, by norm_num,
   (c4_swivel_direction_and_offset (1/2) 45 2 (0, 0) (1, 0) (1, 1) (3, 4) (0, 1)
      (by norm_num) (by norm_num)).1,
   (c4_swivel_direction_and_offset (1/2) 45 2 (0, 0) (1, 0) (1, 1) (3, 4) (0, 1)
      (by norm_num) (by norm_num)).2⟩
